import Mathlib

/-!
Verification development for `mujoco_py/mjviewer.py` (MjViewerBasic / MjViewer).

The Python classes are shallowly embedded: viewer attributes become fields of a
`ViewerState` structure; GLFW window queries (shift/ctrl key state, framebuffer
size, cursor position) become explicit environment records; external side
effects (starting/joining the video worker process, writing an image file,
moving the camera in the native library) become an emitted `Event` list; the
multiprocessing queue becomes a `List (Option Nat)` field of the state.
Python floats are modelled as exact rationals, Python `int()` truncation as
truncation toward zero on `ℚ`.
-/

namespace MjViewer

/-- GLFW action code for a key/button release. -/
def GLFW_RELEASE : Nat := 0

/-- GLFW action code for a key/button press. -/
def GLFW_PRESS : Nat := 1

-- GLFW key codes used by `mjviewer.py`.
def KEY_SEMICOLON : Nat := 59
def KEY_COMMA : Nat := 44
def KEY_PERIOD : Nat := 46
def KEY_SLASH : Nat := 47
def KEY_0 : Nat := 48
def KEY_1 : Nat := 49
def KEY_2 : Nat := 50
def KEY_3 : Nat := 51
def KEY_4 : Nat := 52
def KEY_A : Nat := 65
def KEY_B : Nat := 66
def KEY_C : Nat := 67
def KEY_D : Nat := 68
def KEY_E : Nat := 69
def KEY_F : Nat := 70
def KEY_G : Nat := 71
def KEY_H : Nat := 72
def KEY_I : Nat := 73
def KEY_J : Nat := 74
def KEY_K : Nat := 75
def KEY_L : Nat := 76
def KEY_M : Nat := 77
def KEY_N : Nat := 78
def KEY_O : Nat := 79
def KEY_P : Nat := 80
def KEY_Q : Nat := 81
def KEY_R : Nat := 82
def KEY_S : Nat := 83
def KEY_T : Nat := 84
def KEY_U : Nat := 85
def KEY_V : Nat := 86
def KEY_W : Nat := 87
def KEY_X : Nat := 88
def KEY_Y : Nat := 89
def KEY_Z : Nat := 90
def KEY_ESCAPE : Nat := 256
def KEY_RIGHT : Nat := 262
def KEY_TAB : Nat := 258
def KEY_SPACE : Nat := 32
def KEY_LEFT_SHIFT : Nat := 340

-- MuJoCo mouse-action constants (mjtMouse) from `mujoco_py.generated.const`.
def MOUSE_NONE : Nat := 0
def MOUSE_ROTATE_V : Nat := 1
def MOUSE_ROTATE_H : Nat := 2
def MOUSE_MOVE_V : Nat := 3
def MOUSE_MOVE_H : Nat := 4
def MOUSE_ZOOM : Nat := 5

-- MuJoCo camera-type constants (mjtCamera) from `mujoco_py.generated.const`.
def CAMERA_FREE : Int := 0
def CAMERA_TRACKING : Int := 1
def CAMERA_FIXED : Int := 2

/-- Python `int(...)` on a float: truncation toward zero. -/
def pyTrunc (q : ℚ) : Int := if 0 ≤ q then ⌊q⌋ else ⌈q⌉

/-- The camera record of a render context (`ctx.cam`); `rec_copy` / `rec_assign`
copy all of its fields, so it is modelled as a plain immutable record. -/
structure CamRec where
  fixedcamid : Int
  camtype : Int
  distance : ℚ
  azimuth : ℚ
  elevation : ℚ
  lookat : List ℚ
deriving DecidableEq, Repr

/-- The mutable parts of a render context that `_read_pixels_as_in_window`
saves, overwrites and restores: the markers list, the overlay mapping and the
camera record. -/
structure RenderCtx where
  markers : List Nat
  overlay : List (Nat × String)
  cam : CamRec
deriving DecidableEq, Repr

/-- The resolution arithmetic at the top of `_read_pixels_as_in_window`:
scale the framebuffer size by `min(1000 / min(resolution), 1)`, truncate to
integers (`astype(np.int32)`), and round each component down to a multiple of
16 (`resolution -= resolution % 16`). -/
def computeResolution (res : Int × Int) : Int × Int :=
  let m : ℚ := min (1000 / (min res.1 res.2 : ℚ)) 1
  let r1 := pyTrunc ((res.1 : ℚ) * m)
  let r2 := pyTrunc ((res.2 : ℚ) * m)
  (r1 - r1 % 16, r2 - r2 % 16)

/-- `MjViewer._read_pixels_as_in_window`: save the off-screen context's
markers/overlay/cam (deep copies), install the window context's
markers/overlay/cam into the off-screen context, render off-screen, flip the
image vertically (`img[::-1]`), then restore the saved off-screen state.
`simRender` stands for `self.sim.render`, which produces the pixel rows from
the resolution and the off-screen context. -/
def readPixelsAsInWindow (simRender : Int × Int → RenderCtx → List (List Nat))
    (res : Int × Int) (offscreen_ctx window_ctx : RenderCtx) :
    List (List Nat) × RenderCtx :=
  let resolution := computeResolution res
  let saved : List Nat × List (Nat × String) × CamRec :=
    (offscreen_ctx.markers, offscreen_ctx.overlay, offscreen_ctx.cam)
  let off1 : RenderCtx :=
    { markers := window_ctx.markers, overlay := window_ctx.overlay,
      cam := window_ctx.cam }
  let img := (simRender resolution off1).reverse
  let off2 : RenderCtx :=
    { markers := saved.1, overlay := saved.2.1, cam := saved.2.2 }
  (img, off2)

/-- `save_video(queue, filename, fps)`: pop items until a `None` sentinel,
appending each frame to the writer, then close the writer and return.  The
queue is modelled as the list of items that will arrive; the result is `some
writtenFrames` when the loop reaches a sentinel (the worker terminates and the
writer is closed), and `none` when the modelled queue is exhausted without a
sentinel (the worker would block forever on `queue.get()`). -/
def saveVideoRun : List (Option Nat) → Option (List Nat)
  | [] => none
  | none :: _ => some []
  | some f :: rest => (saveVideoRun rest).map (f :: ·)

/-- External effects emitted by the callbacks: camera motion delegated to the
native library, starting/joining the video worker process, writing a
screenshot file, printing to the console. -/
inductive Event where
  | moveCamera (action : Nat) (dx dy : ℚ)
  | startVideoWorker (path : String) (fps : ℚ)
  | joinVideoWorker
  | writeImage (path : String) (img : Nat)
  | printMsg (msg : String)
deriving DecidableEq, Repr

/-- The state of an `MjViewer` (including the `MjViewerBasic` attributes and
the shared render-context / model fields the callbacks touch).  `_paused` is
`Option Bool` because the code guards some branches with
`self._paused is not None`.  The multiprocessing queue `_video_queue` is the
list of items enqueued so far. -/
structure ViewerState where
  -- MjViewerBasic attributes
  button_left_pressed : Bool
  button_right_pressed : Bool
  last_mouse_x : Int
  last_mouse_y : Int
  scale : ℚ
  exit : Bool
  -- shared camera of the window render context (`self.cam`)
  cam_fixedcamid : Int
  cam_type : Int
  -- visualisation options (`self.vopt`)
  vopt_flags : List Bool
  vopt_frame : Int
  vopt_geomgroup : List Nat
  -- sim/model fields the callbacks touch
  ncam : Int
  timestep : ℚ
  nsubsteps : Nat
  geom_rgba_alpha : List ℚ
  body_mocapid : List Int
  geom_bodyid : List Nat
  extras : List ℚ
  -- MjViewer attributes
  paused : Option Bool
  advance_by_one_step : Bool
  record_video : Bool
  video_queue : List (Option Nat)
  video_idx : Nat
  image_idx : Nat
  run_speed : ℚ
  loop_count : ℚ
  render_every_frame : Bool
  show_mocap : Bool
  transparent : Bool
  time_per_render : ℚ
  hide_overlay : Bool
  user_overlay : List (Nat × String)
  overlay : List (Nat × String)
  markers : List Nat
  target_x : Int
  target_y : Int
  target_z : Int
  reach_mode : String
  path_vis : Bool
  adapt : Bool
  gripper : Int
  external_force : Int
  additional_mass : Int
  planet : String

/-- Truthiness of `self._paused` (`None` is falsy in Python). -/
def pausedTruthy : Option Bool → Bool
  | none => false
  | some b => b

/-- GLFW window queries made inside `_cursor_pos_callback`: whether a shift
key is down, and the framebuffer size. -/
structure CursorEnv where
  shift : Bool
  fbWidth : Int
  fbHeight : Int

/-- `MjViewerBasic._cursor_pos_callback(window, xpos, ypos)`: if no mouse
button is recorded as pressed, return immediately; otherwise pick the camera
action from the pressed buttons and the shift modifier, call
`move_camera(action, dx / height, dy / height)` once with the scaled cursor
deltas, and record the scaled cursor position. -/
def cursorPosCallback (env : CursorEnv) (s : ViewerState) (xpos ypos : ℚ) :
    ViewerState × List Event :=
  if ¬(s.button_left_pressed ∨ s.button_right_pressed) then (s, [])
  else
    let action :=
      if s.button_right_pressed then
        if env.shift then MOUSE_MOVE_H else MOUSE_MOVE_V
      else if s.button_left_pressed then
        if env.shift then MOUSE_ROTATE_H else MOUSE_ROTATE_V
      else MOUSE_ZOOM
    let dx : Int := pyTrunc (s.scale * xpos) - s.last_mouse_x
    let dy : Int := pyTrunc (s.scale * ypos) - s.last_mouse_y
    ({ s with last_mouse_x := pyTrunc (s.scale * xpos),
              last_mouse_y := pyTrunc (s.scale * ypos) },
     [Event.moveCamera action ((dx : ℚ) / (env.fbHeight : ℚ))
        ((dy : ℚ) / (env.fbHeight : ℚ))])

/-- Python `"%07d" % n`: decimal digits zero-padded to width 7. -/
def pad7 (n : Nat) : String :=
  let s := toString n
  String.mk (List.replicate (7 - s.length) '0') ++ s

/-- `self._video_path % idx` with `_video_path = "/tmp/video_%07d.mp4"`. -/
def videoPathFmt (idx : Nat) : String := "/tmp/video_" ++ pad7 idx ++ ".mp4"

/-- `self._image_path % idx` with `_image_path = "/tmp/frame_%07d.png"`. -/
def imagePathFmt (idx : Nat) : String := "/tmp/frame_" ++ pad7 idx ++ ".png"

/-- Whether geom `g` belongs to a mocap body: some `body_idx1` with
`body_mocapid[body_idx1] != -1` has `geom_bodyid[g] == body_idx1`. -/
def isMocapGeom (body_mocapid : List Int) (geom_bodyid : List Nat) (g : Nat) :
    Bool :=
  match geom_bodyid.get? g with
  | some b => body_mocapid.getD b (-1) != -1
  | none => false

/-- The nested loop of the `KEY_M` branch, after `_show_mocap` has been
toggled to `show`: for every geom of a mocap body, when hiding store its alpha
in `sim.extras` and zero it, when showing restore it from `sim.extras`.  Each
geom is visited at most once (its body index is unique), so the loop's net
effect is this per-index map. -/
def mocapAlpha (show_mocap : Bool) (body_mocapid : List Int)
    (geom_bodyid : List Nat) (alpha extras : List ℚ) : List ℚ × List ℚ :=
  if show_mocap then
    (alpha.mapIdx (fun g a =>
        if isMocapGeom body_mocapid geom_bodyid g then extras.getD g 0 else a),
     extras)
  else
    (alpha.mapIdx (fun g a =>
        if isMocapGeom body_mocapid geom_bodyid g then 0 else a),
     extras.mapIdx (fun g e =>
        if isMocapGeom body_mocapid geom_bodyid g then alpha.getD g 0 else e))

/-- GLFW window queries made inside `key_callback`
(`glfw.get_key(window, glfw.KEY_LEFT_CONTROL)`), and the image
`_read_pixels_as_in_window()` would return in the `KEY_T` branch / the frame
it would enqueue while recording. -/
structure KeyEnv where
  ctrl_held : Bool
  frame : Nat

/-- `MjViewerBasic.key_callback`: on release of `KEY_ESCAPE`, print and set
`self.exit = True`. -/
def keyCallbackBasic (s : ViewerState) (key action : Nat) :
    ViewerState × List Event :=
  if action = GLFW_RELEASE ∧ key = KEY_ESCAPE then
    ({ s with exit := true }, [Event.printMsg "Pressed ESC"])
  else (s, [])

-- One small named update function per branch of `key_callback`, so the
-- dispatch chain below stays a small term.

/-- `KEY_TAB` branch: `cam.fixedcamid += 1; cam.type = CAMERA_FIXED`, then
wrap to `-1` / `CAMERA_FREE` when the incremented id reaches `self._ncam`. -/
def tabSwitchCamera (s : ViewerState) : ViewerState :=
  if s.cam_fixedcamid + 1 ≥ s.ncam then
    { s with cam_fixedcamid := -1, cam_type := CAMERA_FREE }
  else
    { s with cam_fixedcamid := s.cam_fixedcamid + 1, cam_type := CAMERA_FIXED }

/-- `KEY_H` branch: `self._hide_overlay = not self._hide_overlay`. -/
def toggleHideOverlay (s : ViewerState) : ViewerState :=
  { s with hide_overlay := !s.hide_overlay }

/-- `KEY_SPACE` branch: `self._paused = not self._paused`. -/
def togglePaused (s : ViewerState) : ViewerState :=
  { s with paused := some (!pausedTruthy s.paused) }

/-- `KEY_RIGHT` branch: `self._advance_by_one_step = True; self._paused =
True`. -/
def advanceOneStep (s : ViewerState) : ViewerState :=
  { s with advance_by_one_step := true, paused := some true }

/-- `KEY_V` branch after flipping `_record_video` on: start a worker process
running `save_video` on `self._video_path % self._video_idx` with
`fps = 1 / self._time_per_render`. -/
def videoStart (s : ViewerState) : ViewerState × List Event :=
  ({ s with record_video := !s.record_video },
   [Event.startVideoWorker (videoPathFmt s.video_idx) (1 / s.time_per_render)])

/-- `KEY_V` branch after flipping `_record_video` off: enqueue the `None`
sentinel, join the worker, `self._video_idx += 1`. -/
def videoStop (s : ViewerState) : ViewerState × List Event :=
  ({ s with record_video := !s.record_video,
            video_queue := s.video_queue ++ [none],
            video_idx := s.video_idx + 1 },
   [Event.joinVideoWorker])

/-- `KEY_T` branch: write `_read_pixels_as_in_window()` to
`self._image_path % self._image_idx`, then `self._image_idx += 1`. -/
def captureFrame (env : KeyEnv) (s : ViewerState) : ViewerState × List Event :=
  ({ s with image_idx := s.image_idx + 1 },
   [Event.writeImage (imagePathFmt s.image_idx) env.frame])

/-- `KEY_S` branch: `self._run_speed /= 2.0`. -/
def slowDown (s : ViewerState) : ViewerState :=
  { s with run_speed := s.run_speed / 2 }

/-- `KEY_F` branch: `self._run_speed *= 2.0`. -/
def speedUp (s : ViewerState) : ViewerState :=
  { s with run_speed := s.run_speed * 2 }

/-- `KEY_C` branch: `vopt.flags[10] = vopt.flags[11] = not vopt.flags[10]`. -/
def toggleContactForces (s : ViewerState) : ViewerState :=
  { s with vopt_flags := (s.vopt_flags.set 10 (!(s.vopt_flags.getD 10 false))).set 11 (!(s.vopt_flags.getD 10 false)) }

/-- `KEY_D` branch: toggle `_render_every_frame`. -/
def toggleRenderEveryFrame (s : ViewerState) : ViewerState :=
  { s with render_every_frame := !s.render_every_frame }

/-- `KEY_E` branch: `vopt.frame = 1 - vopt.frame`. -/
def toggleRefFrames (s : ViewerState) : ViewerState :=
  { s with vopt_frame := 1 - s.vopt_frame }

/-- `KEY_R` branch: toggle `_transparent` and then divide or multiply the
geom alphas by 5 depending on the flipped value. -/
def toggleTransparent (s : ViewerState) : ViewerState :=
  if !s.transparent then
    { s with transparent := !s.transparent,
             geom_rgba_alpha := s.geom_rgba_alpha.map (· / 5) }
  else
    { s with transparent := !s.transparent,
             geom_rgba_alpha := s.geom_rgba_alpha.map (· * 5) }

/-- `KEY_M` branch: toggle `_show_mocap` and hide/restore the alphas of mocap
geoms through `sim.extras`. -/
def toggleMocap (s : ViewerState) : ViewerState :=
  { s with show_mocap := !s.show_mocap,
           geom_rgba_alpha := (mocapAlpha (!s.show_mocap) s.body_mocapid s.geom_bodyid s.geom_rgba_alpha s.extras).1,
           extras := (mocapAlpha (!s.show_mocap) s.body_mocapid s.geom_bodyid s.geom_rgba_alpha s.extras).2 }

/-- `KEY_0`..`KEY_4` branch: `vopt.geomgroup[key - KEY_0] ^= 1`. -/
def toggleGeomgroup (s : ViewerState) (key : Nat) : ViewerState :=
  { s with vopt_geomgroup := s.vopt_geomgroup.set (key - KEY_0) ((s.vopt_geomgroup.getD (key - KEY_0) 0) ^^^ 1) }

/-- Function-key branch with CTRL held: toggle
`vopt.flags[min(key - 290 + 12, 21)]`. -/
def toggleVisFlagCtrl (s : ViewerState) (key : Nat) : ViewerState :=
  { s with vopt_flags := s.vopt_flags.set (min (key - 290 + 12) 21) (!(s.vopt_flags.getD (min (key - 290 + 12) 21) false)) }

/-- Function-key branch without CTRL: toggle `vopt.flags[key - 290]`. -/
def toggleVisFlag (s : ViewerState) (key : Nat) : ViewerState :=
  { s with vopt_flags := s.vopt_flags.set (key - 290) (!(s.vopt_flags.getD (key - 290) false)) }

/-- Target-location keys: `self.target_x = v`. -/
def setTargetX (s : ViewerState) (v : Int) : ViewerState :=
  { s with target_x := v }

/-- Target-location keys: `self.target_y = v`. -/
def setTargetY (s : ViewerState) (v : Int) : ViewerState :=
  { s with target_y := v }

/-- Target-location keys: `self.target_z = v`. -/
def setTargetZ (s : ViewerState) (v : Int) : ViewerState :=
  { s with target_z := v }

/-- `KEY_A`/`KEY_Z`/`KEY_X`: set `self.reach_mode`. -/
def setReachMode (s : ViewerState) (m : String) : ViewerState :=
  { s with reach_mode := m }

/-- `KEY_W`: toggle `self.path_vis`. -/
def togglePathVis (s : ViewerState) : ViewerState :=
  { s with path_vis := !s.path_vis }

/-- `KEY_LEFT_SHIFT`: toggle `self.adapt`. -/
def toggleAdapt (s : ViewerState) : ViewerState :=
  { s with adapt := !s.adapt }

/-- `KEY_N`: `self.gripper *= -1`. -/
def flipGripper (s : ViewerState) : ViewerState :=
  { s with gripper := s.gripper * (-1) }

/-- `KEY_G`/`KEY_B`: `self.external_force += d`. -/
def bumpExternalForce (s : ViewerState) (d : Int) : ViewerState :=
  { s with external_force := s.external_force + d }

/-- `KEY_U`/`KEY_Y`: `self.additional_mass = v`. -/
def setAdditionalMass (s : ViewerState) (v : Int) : ViewerState :=
  { s with additional_mass := v }

/-- Gravity keys: `self.planet = p`. -/
def setPlanet (s : ViewerState) (p : String) : ViewerState :=
  { s with planet := p }

/-- The non-release (`action != glfw.RELEASE`) half of
`MjViewer.key_callback`: adjust the target location flags. -/
def keyPress (s : ViewerState) (key : Nat) : ViewerState :=
  if key = KEY_O then setTargetX s (-1)
  else if key = KEY_P then setTargetX s 1
  else if key = KEY_L then setTargetY s (-1)
  else if key = KEY_SEMICOLON then setTargetY s 1
  else if key = KEY_PERIOD then setTargetZ s (-1)
  else if key = KEY_SLASH then setTargetZ s 1
  else s

/-- The release (`action == glfw.RELEASE`) half of `MjViewer.key_callback`
(the `elif` chain, before the final `super().key_callback` call).
The `KEY_TAB` branch increments `cam.fixedcamid`, sets `cam.type` to
`CAMERA_FIXED`, and when the incremented id reaches `self._ncam` wraps to
`-1` / `CAMERA_FREE`.  The `KEY_V`/escape branch flips `_record_video` and
then branches on the flipped value (`if self._record_video` /
`if not self._record_video`).  The `KEY_R` and `KEY_M` branches flip their
toggle and then branch on the flipped value. -/
def keyRelease (env : KeyEnv) (s : ViewerState) (key : Nat) :
    ViewerState × List Event :=
  if key = KEY_TAB then (tabSwitchCamera s, [])
  else if key = KEY_H then (toggleHideOverlay s, [])
  else if key = KEY_SPACE ∧ s.paused ≠ none then (togglePaused s, [])
  else if key = KEY_RIGHT ∧ s.paused ≠ none then (advanceOneStep s, [])
  else if key = KEY_V ∨ (key = KEY_ESCAPE ∧ s.record_video = true) then
    if !s.record_video then videoStart s else videoStop s
  else if key = KEY_T then captureFrame env s
  else if key = KEY_S then (slowDown s, [])
  else if key = KEY_F then (speedUp s, [])
  else if key = KEY_C then (toggleContactForces s, [])
  else if key = KEY_D then (toggleRenderEveryFrame s, [])
  else if key = KEY_E then (toggleRefFrames s, [])
  else if key = KEY_R then (toggleTransparent s, [])
  else if key = KEY_M then (toggleMocap s, [])
  else if key = KEY_0 ∨ key = KEY_1 ∨ key = KEY_2 ∨ key = KEY_3 ∨
      key = KEY_4 then (toggleGeomgroup s key, [])
  else if env.ctrl_held = true ∧ 290 ≤ key ∧ key ≤ 301 then
    (toggleVisFlagCtrl s key, [])
  else if 290 ≤ key ∧ key ≤ 301 then (toggleVisFlag s key, [])
  else if key = KEY_O then (setTargetX s (-1), [])
  else if key = KEY_P then (setTargetX s 1, [])
  else if key = KEY_L then (setTargetY s (-1), [])
  else if key = KEY_SEMICOLON then (setTargetY s 1, [])
  else if key = KEY_PERIOD then (setTargetZ s (-1), [])
  else if key = KEY_SLASH then (setTargetZ s 1, [])
  else if key = KEY_A then (setReachMode s "reach_target", [])
  else if key = KEY_Z then (setReachMode s "pick_up", [])
  else if key = KEY_X then (setReachMode s "drop_off", [])
  else if key = KEY_W then (togglePathVis s, [])
  else if key = KEY_LEFT_SHIFT then (toggleAdapt s, [])
  else if key = KEY_N then (flipGripper s, [])
  else if key = KEY_G then (bumpExternalForce s 1, [])
  else if key = KEY_B then (bumpExternalForce s (-1), [])
  else if key = KEY_U then (setAdditionalMass s 1, [])
  else if key = KEY_Y then (setAdditionalMass s (-1), [])
  else if key = KEY_Q then (setPlanet s "earth", [])
  else if key = KEY_K then (setPlanet s "mars", [])
  else if key = KEY_COMMA then (setPlanet s "jupiter", [])
  else if key = KEY_I then (setPlanet s "moon", [])
  else if key = KEY_J then (setPlanet s "ISS", [])
  else (s, [])

/-- `MjViewer.key_callback`: the press half or the release `elif` chain,
followed in both cases by `super().key_callback(...)`. -/
def keyCallback (env : KeyEnv) (s : ViewerState) (key action : Nat) :
    ViewerState × List Event :=
  if action ≠ GLFW_RELEASE then
    keyCallbackBasic (keyPress s key) key action
  else
    ((keyCallbackBasic (keyRelease env s key).1 key GLFW_RELEASE).1,
     (keyRelease env s key).2 ++
       (keyCallbackBasic (keyRelease env s key).1 key GLFW_RELEASE).2)

/-- External inputs of `MjViewer.render`: the overlay entries
`_create_full_overlay` would add (a function of the state), the frame
`_read_pixels_as_in_window()` would return, the elapsed wall-clock time of
one inner iteration (`time.time() - render_start`), and whether GLFW reports
the window should close. -/
structure RenderEnv where
  mkOverlay : ViewerState → List (Nat × String)
  frame : Nat
  dt : ℚ
  wsc : Bool

/-- The overlay part of `render_inner_loop`: `self._overlay.clear()`, then
unless `_hide_overlay`, copy the `_user_overlay` entries back and append the
entries of `_create_full_overlay()`. -/
def innerOverlay (env : RenderEnv) (s : ViewerState) : ViewerState :=
  if s.hide_overlay then { s with overlay := [] }
  else { s with overlay := s.user_overlay ++ env.mkOverlay s }

/-- `super().render()` (`MjViewerBasic.render`): sets `self.exit = True` when
GLFW reports the window should close; the native scene rendering touches none
of the modelled fields. -/
def basicRender (env : RenderEnv) (s : ViewerState) : ViewerState :=
  if env.wsc then { s with exit := true } else s

/-- The tail of `render_inner_loop`: while recording, read the pixels and put
the frame on `_video_queue`; otherwise update the running average
`_time_per_render = 0.9 * _time_per_render + 0.1 * elapsed`. -/
def recordOrTime (env : RenderEnv) (s : ViewerState) : ViewerState :=
  if s.record_video then
    { s with video_queue := s.video_queue ++ [some env.frame] }
  else
    { s with time_per_render :=
        (9 : ℚ) / 10 * s.time_per_render + (1 : ℚ) / 10 * env.dt }

/-- `render_inner_loop` of `MjViewer.render`. -/
def renderInnerLoop (env : RenderEnv) (s : ViewerState) : ViewerState :=
  recordOrTime env (basicRender env (innerOverlay env s))

/-- The `while self._paused:` loop of `MjViewer.render`: run the inner loop;
when `_advance_by_one_step` is set afterwards, clear it and break.  `fuel`
bounds the number of iterations; `none` models non-termination (still paused
with no single-step request).  The `Nat` in the result counts inner-loop
iterations. -/
def pausedLoop (env : RenderEnv) : Nat → ViewerState → Option (ViewerState × Nat)
  | 0, _ => none
  | fuel + 1, s =>
    if pausedTruthy s.paused then
      if (renderInnerLoop env s).advance_by_one_step then
        some ({ renderInnerLoop env s with advance_by_one_step := false }, 1)
      else
        (pausedLoop env fuel (renderInnerLoop env s)).map
          (fun r => (r.1, r.2 + 1))
    else some (s, 0)

/-- The `while self._loop_count > 0:` loop of `MjViewer.render`: run the
inner loop and decrement `_loop_count` until it is no longer positive. -/
def loopCountLoop (env : RenderEnv) :
    Nat → ViewerState → Option (ViewerState × Nat)
  | 0, _ => none
  | fuel + 1, s =>
    if s.loop_count > 0 then
      (loopCountLoop env fuel
        { renderInnerLoop env s with
            loop_count := (renderInnerLoop env s).loop_count - 1 }).map
        (fun r => (r.1, r.2 + 1))
    else some (s, 0)

/-- `MjViewer.render`: save `_overlay` into `_user_overlay`, run the paused
loop or the loop-count loop (incrementing `_loop_count` by
`timestep * nsubsteps / (_time_per_render * _run_speed)` first, and forcing
it to 1 when `_render_every_frame`), then clear `_markers` and `_overlay`.
The result carries the number of inner-loop iterations. -/
def render (env : RenderEnv) (fuel : Nat) (s : ViewerState) :
    Option (ViewerState × Nat) :=
  (if pausedTruthy ({ s with user_overlay := s.overlay } : ViewerState).paused then
     pausedLoop env fuel { s with user_overlay := s.overlay }
   else if ({ s with user_overlay := s.overlay } : ViewerState).render_every_frame then
     loopCountLoop env fuel { s with user_overlay := s.overlay, loop_count := 1 }
   else
     loopCountLoop env fuel
       { s with user_overlay := s.overlay,
                loop_count := s.loop_count + s.timestep * (s.nsubsteps : ℚ) /
                  (s.time_per_render * s.run_speed) }).map
    (fun p => ({ p.1 with markers := [], overlay := [] }, p.2))

/-- A concrete viewer state used to instantiate the theorems. -/
def baseState : ViewerState where
  button_left_pressed := false
  button_right_pressed := false
  last_mouse_x := 10
  last_mouse_y := 20
  scale := 2
  exit := false
  cam_fixedcamid := -1
  cam_type := 0
  vopt_flags := List.replicate 22 false
  vopt_frame := 0
  vopt_geomgroup := [1, 1, 1, 1, 1]
  ncam := 3
  timestep := 1 / 500
  nsubsteps := 1
  geom_rgba_alpha := [1, 1]
  body_mocapid := [-1, 0]
  geom_bodyid := [0, 1]
  extras := [0, 0]
  paused := some false
  advance_by_one_step := false
  record_video := false
  video_queue := []
  video_idx := 0
  image_idx := 0
  run_speed := 1
  loop_count := 0
  render_every_frame := false
  show_mocap := true
  transparent := false
  time_per_render := 1 / 60
  hide_overlay := false
  user_overlay := []
  overlay := []
  markers := []
  target_x := 0
  target_y := 0
  target_z := 0
  reach_mode := "reach_target"
  path_vis := false
  adapt := false
  gripper := 1
  external_force := 0
  additional_mass := 0
  planet := "earth"

/-- A concrete cursor environment. -/
def cenv0 : CursorEnv where
  shift := false
  fbWidth := 640
  fbHeight := 480

/-- A concrete state with the left mouse button recorded as pressed. -/
def dragState : ViewerState := { baseState with button_left_pressed := true }

/-- A concrete key-callback environment. -/
def kenv0 : KeyEnv where
  ctrl_held := false
  frame := 7

/-- A concrete render environment. -/
def renv0 : RenderEnv where
  mkOverlay := fun _ => []
  frame := 7
  dt := 1
  wsc := false

/-- A paused, single-stepping, recording state with non-empty markers and
overlay. -/
def pausedCaptureState : ViewerState :=
  { baseState with paused := some true, advance_by_one_step := true,
                   hide_overlay := true, record_video := true,
                   markers := [5], overlay := [(0, "x")] }

/-- The state `render renv0 2 pausedCaptureState` returns. -/
def renderedCaptureState : ViewerState :=
  { baseState with paused := some true, hide_overlay := true,
                   record_video := true, user_overlay := [(0, "x")],
                   video_queue := [some 7] }

lemma keyCallbackBasic_image_idx (s : ViewerState) (key action : Nat) :
    (keyCallbackBasic s key action).1.image_idx = s.image_idx := by
  unfold keyCallbackBasic; split_ifs <;> rfl

lemma keyCallbackBasic_fixedcamid (s : ViewerState) (key action : Nat) :
    (keyCallbackBasic s key action).1.cam_fixedcamid = s.cam_fixedcamid := by
  unfold keyCallbackBasic; split_ifs <;> rfl

lemma keyCallbackBasic_cam_type (s : ViewerState) (key action : Nat) :
    (keyCallbackBasic s key action).1.cam_type = s.cam_type := by
  unfold keyCallbackBasic; split_ifs <;> rfl

lemma keyCallbackBasic_ncam (s : ViewerState) (key action : Nat) :
    (keyCallbackBasic s key action).1.ncam = s.ncam := by
  unfold keyCallbackBasic; split_ifs <;> rfl

lemma keyPress_image_idx (s : ViewerState) (key : Nat) :
    (keyPress s key).image_idx = s.image_idx := by
  unfold keyPress; split_ifs <;> rfl

lemma keyPress_fixedcamid (s : ViewerState) (key : Nat) :
    (keyPress s key).cam_fixedcamid = s.cam_fixedcamid := by
  unfold keyPress; split_ifs <;> rfl

lemma keyPress_ncam (s : ViewerState) (key : Nat) :
    (keyPress s key).ncam = s.ncam := by
  unfold keyPress; split_ifs <;> rfl

/-- Frame facts about the release chain: `self._ncam` never changes; only the
`KEY_T` branch touches `_image_idx`; only the `KEY_TAB` branch touches the
camera id/type. -/
lemma keyRelease_frame (env : KeyEnv) (s : ViewerState) (key : Nat) :
    (keyRelease env s key).1.ncam = s.ncam ∧
    (key ≠ KEY_T → (keyRelease env s key).1.image_idx = s.image_idx) ∧
    (key ≠ KEY_TAB →
      (keyRelease env s key).1.cam_fixedcamid = s.cam_fixedcamid ∧
      (keyRelease env s key).1.cam_type = s.cam_type) := by
  unfold keyRelease
  by_cases h1 : key = KEY_TAB
  · rw [if_pos h1]
    refine ⟨?_, fun _ => ?_, fun hT => absurd h1 hT⟩ <;>
      (unfold tabSwitchCamera; split_ifs <;> rfl)
  rw [if_neg h1]
  by_cases h2 : key = KEY_H
  · rw [if_pos h2]; exact ⟨rfl, fun _ => rfl, fun _ => ⟨rfl, rfl⟩⟩
  rw [if_neg h2]
  by_cases h3 : key = KEY_SPACE ∧ s.paused ≠ none
  · rw [if_pos h3]; exact ⟨rfl, fun _ => rfl, fun _ => ⟨rfl, rfl⟩⟩
  rw [if_neg h3]
  by_cases h4 : key = KEY_RIGHT ∧ s.paused ≠ none
  · rw [if_pos h4]; exact ⟨rfl, fun _ => rfl, fun _ => ⟨rfl, rfl⟩⟩
  rw [if_neg h4]
  by_cases h5 : key = KEY_V ∨ (key = KEY_ESCAPE ∧ s.record_video = true)
  · rw [if_pos h5]
    refine ⟨?_, fun _ => ?_, fun _ => ⟨?_, ?_⟩⟩ <;> split_ifs <;> rfl
  rw [if_neg h5]
  by_cases h6 : key = KEY_T
  · rw [if_pos h6]; exact ⟨rfl, fun h => absurd h6 h, fun _ => ⟨rfl, rfl⟩⟩
  rw [if_neg h6]
  by_cases h7 : key = KEY_S
  · rw [if_pos h7]; exact ⟨rfl, fun _ => rfl, fun _ => ⟨rfl, rfl⟩⟩
  rw [if_neg h7]
  by_cases h8 : key = KEY_F
  · rw [if_pos h8]; exact ⟨rfl, fun _ => rfl, fun _ => ⟨rfl, rfl⟩⟩
  rw [if_neg h8]
  by_cases h9 : key = KEY_C
  · rw [if_pos h9]; exact ⟨rfl, fun _ => rfl, fun _ => ⟨rfl, rfl⟩⟩
  rw [if_neg h9]
  by_cases h10 : key = KEY_D
  · rw [if_pos h10]; exact ⟨rfl, fun _ => rfl, fun _ => ⟨rfl, rfl⟩⟩
  rw [if_neg h10]
  by_cases h11 : key = KEY_E
  · rw [if_pos h11]; exact ⟨rfl, fun _ => rfl, fun _ => ⟨rfl, rfl⟩⟩
  rw [if_neg h11]
  by_cases h12 : key = KEY_R
  · rw [if_pos h12]
    refine ⟨?_, fun _ => ?_, fun _ => ⟨?_, ?_⟩⟩ <;>
      (unfold toggleTransparent; split_ifs <;> rfl)
  rw [if_neg h12]
  by_cases h13 : key = KEY_M
  · rw [if_pos h13]; exact ⟨rfl, fun _ => rfl, fun _ => ⟨rfl, rfl⟩⟩
  rw [if_neg h13]
  by_cases h14 : key = KEY_0 ∨ key = KEY_1 ∨ key = KEY_2 ∨ key = KEY_3 ∨
      key = KEY_4
  · rw [if_pos h14]; exact ⟨rfl, fun _ => rfl, fun _ => ⟨rfl, rfl⟩⟩
  rw [if_neg h14]
  by_cases h15 : env.ctrl_held = true ∧ 290 ≤ key ∧ key ≤ 301
  · rw [if_pos h15]; exact ⟨rfl, fun _ => rfl, fun _ => ⟨rfl, rfl⟩⟩
  rw [if_neg h15]
  by_cases h16 : 290 ≤ key ∧ key ≤ 301
  · rw [if_pos h16]; exact ⟨rfl, fun _ => rfl, fun _ => ⟨rfl, rfl⟩⟩
  rw [if_neg h16]
  by_cases h17 : key = KEY_O
  · rw [if_pos h17]; exact ⟨rfl, fun _ => rfl, fun _ => ⟨rfl, rfl⟩⟩
  rw [if_neg h17]
  by_cases h18 : key = KEY_P
  · rw [if_pos h18]; exact ⟨rfl, fun _ => rfl, fun _ => ⟨rfl, rfl⟩⟩
  rw [if_neg h18]
  by_cases h19 : key = KEY_L
  · rw [if_pos h19]; exact ⟨rfl, fun _ => rfl, fun _ => ⟨rfl, rfl⟩⟩
  rw [if_neg h19]
  by_cases h20 : key = KEY_SEMICOLON
  · rw [if_pos h20]; exact ⟨rfl, fun _ => rfl, fun _ => ⟨rfl, rfl⟩⟩
  rw [if_neg h20]
  by_cases h21 : key = KEY_PERIOD
  · rw [if_pos h21]; exact ⟨rfl, fun _ => rfl, fun _ => ⟨rfl, rfl⟩⟩
  rw [if_neg h21]
  by_cases h22 : key = KEY_SLASH
  · rw [if_pos h22]; exact ⟨rfl, fun _ => rfl, fun _ => ⟨rfl, rfl⟩⟩
  rw [if_neg h22]
  by_cases h23 : key = KEY_A
  · rw [if_pos h23]; exact ⟨rfl, fun _ => rfl, fun _ => ⟨rfl, rfl⟩⟩
  rw [if_neg h23]
  by_cases h24 : key = KEY_Z
  · rw [if_pos h24]; exact ⟨rfl, fun _ => rfl, fun _ => ⟨rfl, rfl⟩⟩
  rw [if_neg h24]
  by_cases h25 : key = KEY_X
  · rw [if_pos h25]; exact ⟨rfl, fun _ => rfl, fun _ => ⟨rfl, rfl⟩⟩
  rw [if_neg h25]
  by_cases h26 : key = KEY_W
  · rw [if_pos h26]; exact ⟨rfl, fun _ => rfl, fun _ => ⟨rfl, rfl⟩⟩
  rw [if_neg h26]
  by_cases h27 : key = KEY_LEFT_SHIFT
  · rw [if_pos h27]; exact ⟨rfl, fun _ => rfl, fun _ => ⟨rfl, rfl⟩⟩
  rw [if_neg h27]
  by_cases h28 : key = KEY_N
  · rw [if_pos h28]; exact ⟨rfl, fun _ => rfl, fun _ => ⟨rfl, rfl⟩⟩
  rw [if_neg h28]
  by_cases h29 : key = KEY_G
  · rw [if_pos h29]; exact ⟨rfl, fun _ => rfl, fun _ => ⟨rfl, rfl⟩⟩
  rw [if_neg h29]
  by_cases h30 : key = KEY_B
  · rw [if_pos h30]; exact ⟨rfl, fun _ => rfl, fun _ => ⟨rfl, rfl⟩⟩
  rw [if_neg h30]
  by_cases h31 : key = KEY_U
  · rw [if_pos h31]; exact ⟨rfl, fun _ => rfl, fun _ => ⟨rfl, rfl⟩⟩
  rw [if_neg h31]
  by_cases h32 : key = KEY_Y
  · rw [if_pos h32]; exact ⟨rfl, fun _ => rfl, fun _ => ⟨rfl, rfl⟩⟩
  rw [if_neg h32]
  by_cases h33 : key = KEY_Q
  · rw [if_pos h33]; exact ⟨rfl, fun _ => rfl, fun _ => ⟨rfl, rfl⟩⟩
  rw [if_neg h33]
  by_cases h34 : key = KEY_K
  · rw [if_pos h34]; exact ⟨rfl, fun _ => rfl, fun _ => ⟨rfl, rfl⟩⟩
  rw [if_neg h34]
  by_cases h35 : key = KEY_COMMA
  · rw [if_pos h35]; exact ⟨rfl, fun _ => rfl, fun _ => ⟨rfl, rfl⟩⟩
  rw [if_neg h35]
  by_cases h36 : key = KEY_I
  · rw [if_pos h36]; exact ⟨rfl, fun _ => rfl, fun _ => ⟨rfl, rfl⟩⟩
  rw [if_neg h36]
  by_cases h37 : key = KEY_J
  · rw [if_pos h37]; exact ⟨rfl, fun _ => rfl, fun _ => ⟨rfl, rfl⟩⟩
  rw [if_neg h37]
  exact ⟨rfl, fun _ => rfl, fun _ => ⟨rfl, rfl⟩⟩

lemma keyCallback_release_fst (env : KeyEnv) (s : ViewerState) (key : Nat) :
    (keyCallback env s key GLFW_RELEASE).1 =
      (keyCallbackBasic (keyRelease env s key).1 key GLFW_RELEASE).1 := rfl

lemma keyCallback_release_snd (env : KeyEnv) (s : ViewerState) (key : Nat) :
    (keyCallback env s key GLFW_RELEASE).2 =
      (keyRelease env s key).2 ++
        (keyCallbackBasic (keyRelease env s key).1 key GLFW_RELEASE).2 := rfl

lemma keyCallbackBasic_V (t : ViewerState) :
    keyCallbackBasic t KEY_V GLFW_RELEASE = (t, []) := rfl

lemma renderInnerLoop_advance (env : RenderEnv) (s : ViewerState) :
    (renderInnerLoop env s).advance_by_one_step = s.advance_by_one_step := by
  unfold renderInnerLoop recordOrTime basicRender innerOverlay
  split_ifs <;> rfl

lemma renderInnerLoop_paused (env : RenderEnv) (s : ViewerState) :
    (renderInnerLoop env s).paused = s.paused := by
  unfold renderInnerLoop recordOrTime basicRender innerOverlay
  split_ifs <;> rfl

/-- C1: Double-buffering restore: for every call to
`MjViewer._read_pixels_as_in_window`, the off-screen render context's markers
list, overlay mapping and camera record are equal after the call to their
values before the call. -/
theorem readPixels_restores_offscreen
    (simRender : Int × Int → RenderCtx → List (List Nat))
    (res : Int × Int) (offscreen_ctx window_ctx : RenderCtx) :
    ((readPixelsAsInWindow simRender res offscreen_ctx window_ctx).2).markers
        = offscreen_ctx.markers ∧
    ((readPixelsAsInWindow simRender res offscreen_ctx window_ctx).2).overlay
        = offscreen_ctx.overlay ∧
    ((readPixelsAsInWindow simRender res offscreen_ctx window_ctx).2).cam
        = offscreen_ctx.cam :=
  ⟨rfl, rfl, rfl⟩

/-- C2: for every queue consisting of frames followed by a `None` sentinel
(and anything after it), `save_video` appends exactly the frames preceding the
first `None` to the writer, in order, then closes the writer and terminates;
nothing at or after the first `None` is written. -/
theorem saveVideo_writes_frames_before_sentinel
    (frames : List Nat) (rest : List (Option Nat)) :
    saveVideoRun (frames.map some ++ none :: rest) = some frames := by
  induction frames with
  | nil => rfl
  | cons f fs ih => simp [saveVideoRun, ih]

/-- When a button is pressed, `_cursor_pos_callback` reduces to one
`move_camera` call plus the last-mouse-position update. -/
theorem cursorPos_eq (env : CursorEnv) (s : ViewerState) (xpos ypos : ℚ)
    (h : s.button_left_pressed = true ∨ s.button_right_pressed = true) :
    cursorPosCallback env s xpos ypos =
      ({ s with last_mouse_x := pyTrunc (s.scale * xpos),
                last_mouse_y := pyTrunc (s.scale * ypos) },
       [Event.moveCamera
          (if s.button_right_pressed then
             if env.shift then MOUSE_MOVE_H else MOUSE_MOVE_V
           else if s.button_left_pressed then
             if env.shift then MOUSE_ROTATE_H else MOUSE_ROTATE_V
           else MOUSE_ZOOM)
          (((pyTrunc (s.scale * xpos) - s.last_mouse_x : Int) : ℚ) /
            (env.fbHeight : ℚ))
          (((pyTrunc (s.scale * ypos) - s.last_mouse_y : Int) : ℚ) /
            (env.fbHeight : ℚ))]) := by
  simp only [cursorPosCallback]
  rw [if_neg (not_not_intro h)]

/-- C4: on a cursor event with a button pressed, `move_camera` is called
exactly once with displacement `(dx/height, dy/height)` for the scaled cursor
deltas `dx, dy`; the action is `MOUSE_MOVE_H` for right+shift, `MOUSE_MOVE_V`
for right without shift, `MOUSE_ROTATE_H` for left (not right) with shift and
`MOUSE_ROTATE_V` for left without shift; afterwards `_last_mouse_x/_y` hold
the scaled current position. -/
theorem cursorPos_drag_selects_action (env : CursorEnv) (s : ViewerState)
    (xpos ypos : ℚ)
    (h : s.button_left_pressed = true ∨ s.button_right_pressed = true) :
    (cursorPosCallback env s xpos ypos).1 =
      { s with last_mouse_x := pyTrunc (s.scale * xpos),
               last_mouse_y := pyTrunc (s.scale * ypos) } ∧
    (∃ a : Nat, (cursorPosCallback env s xpos ypos).2 =
      [Event.moveCamera a
        (((pyTrunc (s.scale * xpos) - s.last_mouse_x : Int) : ℚ) /
          (env.fbHeight : ℚ))
        (((pyTrunc (s.scale * ypos) - s.last_mouse_y : Int) : ℚ) /
          (env.fbHeight : ℚ))]) ∧
    (s.button_right_pressed = true → env.shift = true →
      ∃ dx dy : ℚ, (cursorPosCallback env s xpos ypos).2 =
        [Event.moveCamera MOUSE_MOVE_H dx dy]) ∧
    (s.button_right_pressed = true → env.shift = false →
      ∃ dx dy : ℚ, (cursorPosCallback env s xpos ypos).2 =
        [Event.moveCamera MOUSE_MOVE_V dx dy]) ∧
    (s.button_left_pressed = true → s.button_right_pressed = false →
      env.shift = true →
      ∃ dx dy : ℚ, (cursorPosCallback env s xpos ypos).2 =
        [Event.moveCamera MOUSE_ROTATE_H dx dy]) ∧
    (s.button_left_pressed = true → s.button_right_pressed = false →
      env.shift = false →
      ∃ dx dy : ℚ, (cursorPosCallback env s xpos ypos).2 =
        [Event.moveCamera MOUSE_ROTATE_V dx dy]) := by
  rw [cursorPos_eq env s xpos ypos h]
  refine ⟨rfl, ⟨_, rfl⟩, ?_, ?_, ?_, ?_⟩
  · intro h1 h2
    exact ⟨((pyTrunc (s.scale * xpos) - s.last_mouse_x : Int) : ℚ) /
             (env.fbHeight : ℚ),
           ((pyTrunc (s.scale * ypos) - s.last_mouse_y : Int) : ℚ) /
             (env.fbHeight : ℚ), by simp [h1, h2]⟩
  · intro h1 h2
    exact ⟨((pyTrunc (s.scale * xpos) - s.last_mouse_x : Int) : ℚ) /
             (env.fbHeight : ℚ),
           ((pyTrunc (s.scale * ypos) - s.last_mouse_y : Int) : ℚ) /
             (env.fbHeight : ℚ), by simp [h1, h2]⟩
  · intro h1 h2 h3
    exact ⟨((pyTrunc (s.scale * xpos) - s.last_mouse_x : Int) : ℚ) /
             (env.fbHeight : ℚ),
           ((pyTrunc (s.scale * ypos) - s.last_mouse_y : Int) : ℚ) /
             (env.fbHeight : ℚ), by simp [h1, h2, h3]⟩
  · intro h1 h2 h3
    exact ⟨((pyTrunc (s.scale * xpos) - s.last_mouse_x : Int) : ℚ) /
             (env.fbHeight : ℚ),
           ((pyTrunc (s.scale * ypos) - s.last_mouse_y : Int) : ℚ) /
             (env.fbHeight : ℚ), by simp [h1, h2, h3]⟩

/-- C5: when neither mouse button is recorded as pressed,
`_cursor_pos_callback` is a no-op: no `move_camera` call and the whole viewer
state (in particular `_last_mouse_x/_y`) is unchanged. -/
theorem cursorPos_no_button_noop (env : CursorEnv) (s : ViewerState)
    (xpos ypos : ℚ) (hl : s.button_left_pressed = false)
    (hr : s.button_right_pressed = false) :
    cursorPosCallback env s xpos ypos = (s, []) := by
  simp [cursorPosCallback, hl, hr]

/-- Witness for C4 at a concrete drag state and cursor position. -/
theorem cursorPos_drag_selects_action_witness :
    (dragState.button_left_pressed = true ∨
      dragState.button_right_pressed = true) ∧
    (cursorPosCallback cenv0 dragState 3 4).1 =
      { dragState with last_mouse_x := pyTrunc (dragState.scale * 3),
                       last_mouse_y := pyTrunc (dragState.scale * 4) } :=
  ⟨Or.inl rfl,
   (cursorPos_drag_selects_action cenv0 dragState 3 4 (Or.inl rfl)).1⟩

/-- Witness for C5 at a concrete state with no button pressed. -/
theorem cursorPos_no_button_noop_witness :
    baseState.button_left_pressed = false ∧
    baseState.button_right_pressed = false ∧
    cursorPosCallback cenv0 baseState 3 4 = (baseState, []) :=
  ⟨rfl, rfl, cursorPos_no_button_noop cenv0 baseState 3 4 rfl rfl⟩

/-- C3: a release of `KEY_V` (or of `KEY_ESCAPE` while recording) flips
`_record_video`; turning recording on starts a `save_video` worker on
`_video_path % _video_idx` (leaving `_video_idx` unchanged); turning it off
enqueues the `None` sentinel, joins the worker, and increments `_video_idx`
by exactly one. -/
theorem keyCallback_video_toggle (env : KeyEnv) (s : ViewerState) (key : Nat)
    (hk : key = KEY_V ∨ (key = KEY_ESCAPE ∧ s.record_video = true)) :
    (keyCallback env s key GLFW_RELEASE).1.record_video = !s.record_video ∧
    (s.record_video = false →
      (keyCallback env s key GLFW_RELEASE).2 =
        [Event.startVideoWorker (videoPathFmt s.video_idx)
          (1 / s.time_per_render)] ∧
      (keyCallback env s key GLFW_RELEASE).1.video_idx = s.video_idx) ∧
    (s.record_video = true →
      (keyCallback env s key GLFW_RELEASE).1.video_queue =
        s.video_queue ++ [none] ∧
      Event.joinVideoWorker ∈ (keyCallback env s key GLFW_RELEASE).2 ∧
      (keyCallback env s key GLFW_RELEASE).1.video_idx = s.video_idx + 1) := by
  rcases hk with hv | ⟨hesc, hrec⟩
  · subst hv
    have e : keyRelease env s KEY_V =
        if !s.record_video then videoStart s else videoStop s := rfl
    rw [keyCallback_release_fst, keyCallback_release_snd, e]
    cases hb : s.record_video
    · rw [if_pos (show (!false) = true from rfl), keyCallbackBasic_V]
      refine ⟨?_, fun _ => ⟨?_, ?_⟩, fun ht => absurd ht (by decide)⟩ <;>
        simp [videoStart, hb]
    · rw [if_neg (show ¬((!true) = true) from by decide), keyCallbackBasic_V]
      refine ⟨?_, fun hf => absurd hf (by decide), fun _ => ⟨?_, ?_, ?_⟩⟩ <;>
        simp [videoStop, hb]
  · subst hesc
    have e : keyRelease env s KEY_ESCAPE = videoStop s := by
      unfold keyRelease
      rw [if_neg (by decide : ¬(KEY_ESCAPE = KEY_TAB))]
      rw [if_neg (by decide : ¬(KEY_ESCAPE = KEY_H))]
      rw [if_neg (fun h => absurd h.1 (by decide : ¬(KEY_ESCAPE = KEY_SPACE)))]
      rw [if_neg (fun h => absurd h.1 (by decide : ¬(KEY_ESCAPE = KEY_RIGHT)))]
      rw [if_pos (Or.inr ⟨rfl, hrec⟩)]
      rw [if_neg (by simp [hrec] : ¬((!s.record_video) = true))]
    have eb : keyCallbackBasic (videoStop s).1 KEY_ESCAPE GLFW_RELEASE =
        ({ (videoStop s).1 with exit := true },
         [Event.printMsg "Pressed ESC"]) := rfl
    rw [keyCallback_release_fst, keyCallback_release_snd, e, eb]
    refine ⟨rfl, fun hf => absurd hf (by simp [hrec]),
            fun _ => ⟨rfl, ?_, rfl⟩⟩
    simp [videoStop]

/-- Witness for C3: toggling video capture on from a non-recording state. -/
theorem keyCallback_video_toggle_witness :
    baseState.record_video = false ∧
    (keyCallback kenv0 baseState KEY_V GLFW_RELEASE).1.record_video =
      !baseState.record_video :=
  ⟨rfl, (keyCallback_video_toggle kenv0 baseState KEY_V (Or.inl rfl)).1⟩

/-- C6: a release of `KEY_T` writes the image returned by
`_read_pixels_as_in_window` to `_image_path % _image_idx` (pre-call value)
and increments `_image_idx` by exactly one; no other key event changes
`_image_idx`. -/
theorem keyCallback_screenshot (env : KeyEnv) (s : ViewerState) :
    (keyCallback env s KEY_T GLFW_RELEASE).1.image_idx = s.image_idx + 1 ∧
    (keyCallback env s KEY_T GLFW_RELEASE).2 =
      [Event.writeImage (imagePathFmt s.image_idx) env.frame] ∧
    ∀ key action : Nat, ¬(key = KEY_T ∧ action = GLFW_RELEASE) →
      (keyCallback env s key action).1.image_idx = s.image_idx := by
  refine ⟨rfl, rfl, ?_⟩
  intro key action h
  by_cases ha : action = GLFW_RELEASE
  · subst ha
    have hk : key ≠ KEY_T := fun hkey => h ⟨hkey, rfl⟩
    rw [keyCallback_release_fst, keyCallbackBasic_image_idx]
    exact (keyRelease_frame env s key).2.1 hk
  · have e : keyCallback env s key action =
        keyCallbackBasic (keyPress s key) key action := by
      unfold keyCallback
      rw [if_pos ha]
    rw [e, keyCallbackBasic_image_idx, keyPress_image_idx]

/-- Witness for C6: `KEY_T` increments the image index, `KEY_H` leaves it. -/
theorem keyCallback_screenshot_witness :
    (keyCallback kenv0 baseState KEY_T GLFW_RELEASE).1.image_idx =
      baseState.image_idx + 1 ∧
    (keyCallback kenv0 baseState KEY_H GLFW_RELEASE).1.image_idx =
      baseState.image_idx :=
  ⟨(keyCallback_screenshot kenv0 baseState).1,
   (keyCallback_screenshot kenv0 baseState).2.2 KEY_H GLFW_RELEASE
     (by decide)⟩

/-- C7: for positive `_run_speed`, a release of `KEY_S` halves it, a release
of `KEY_F` doubles it, and a `KEY_S` release followed by a `KEY_F` release
leaves it unchanged. -/
theorem keyCallback_speed_keys (env : KeyEnv) (s : ViewerState)
    (_h : 0 < s.run_speed) :
    (keyCallback env s KEY_S GLFW_RELEASE).1.run_speed = s.run_speed / 2 ∧
    (keyCallback env s KEY_F GLFW_RELEASE).1.run_speed = s.run_speed * 2 ∧
    (keyCallback env (keyCallback env s KEY_S GLFW_RELEASE).1 KEY_F
        GLFW_RELEASE).1.run_speed = s.run_speed := by
  refine ⟨rfl, rfl, ?_⟩
  show s.run_speed / 2 * 2 = s.run_speed
  exact div_mul_cancel₀ s.run_speed two_ne_zero

/-- Witness for C7 at `_run_speed = 1`. -/
theorem keyCallback_speed_keys_witness :
    0 < baseState.run_speed ∧
    (keyCallback kenv0 baseState KEY_S GLFW_RELEASE).1.run_speed =
      baseState.run_speed / 2 :=
  ⟨by norm_num [baseState],
   (keyCallback_speed_keys kenv0 baseState (by norm_num [baseState])).1⟩

/-- C8: if `-1 <= cam.fixedcamid < ncam` before a key callback, the same
bounds hold afterwards (for any key and action), and after a `KEY_TAB`
release the camera type is `CAMERA_FREE` exactly when `fixedcamid = -1`,
`CAMERA_FIXED` otherwise. -/
theorem keyCallback_camera_invariant (env : KeyEnv) (s : ViewerState)
    (key action : Nat) (h1 : -1 ≤ s.cam_fixedcamid)
    (h2 : s.cam_fixedcamid < s.ncam) :
    (-1 ≤ (keyCallback env s key action).1.cam_fixedcamid ∧
      (keyCallback env s key action).1.cam_fixedcamid <
        (keyCallback env s key action).1.ncam) ∧
    (key = KEY_TAB → action = GLFW_RELEASE →
      ((keyCallback env s key action).1.cam_fixedcamid = -1 →
        (keyCallback env s key action).1.cam_type = CAMERA_FREE) ∧
      ((keyCallback env s key action).1.cam_fixedcamid ≠ -1 →
        (keyCallback env s key action).1.cam_type = CAMERA_FIXED)) := by
  by_cases ha : action = GLFW_RELEASE
  · subst ha
    by_cases htab : key = KEY_TAB
    · subst htab
      have e : (keyCallback env s KEY_TAB GLFW_RELEASE).1 =
          tabSwitchCamera s := rfl
      rw [e]
      unfold tabSwitchCamera
      split_ifs with hge
      · refine ⟨⟨le_refl (-1), ?_⟩,
          fun _ _ => ⟨fun _ => rfl, fun hne => absurd rfl hne⟩⟩
        show (-1 : Int) < s.ncam
        omega
      · refine ⟨⟨?_, ?_⟩, fun _ _ => ⟨fun heq => ?_, fun _ => rfl⟩⟩
        · show (-1 : Int) ≤ s.cam_fixedcamid + 1
          omega
        · show s.cam_fixedcamid + 1 < s.ncam
          omega
        · exfalso
          have hcc : s.cam_fixedcamid + 1 = -1 := heq
          omega
    · refine ⟨⟨?_, ?_⟩, fun hk => absurd hk htab⟩
      · rw [keyCallback_release_fst, keyCallbackBasic_fixedcamid,
            ((keyRelease_frame env s key).2.2 htab).1]
        exact h1
      · rw [keyCallback_release_fst, keyCallbackBasic_fixedcamid,
            keyCallbackBasic_ncam, ((keyRelease_frame env s key).2.2 htab).1,
            (keyRelease_frame env s key).1]
        exact h2
  · have e : keyCallback env s key action =
        keyCallbackBasic (keyPress s key) key action := by
      unfold keyCallback
      rw [if_pos ha]
    refine ⟨⟨?_, ?_⟩, fun _ hrel => absurd hrel ha⟩
    · rw [e, keyCallbackBasic_fixedcamid, keyPress_fixedcamid]
      exact h1
    · rw [e, keyCallbackBasic_fixedcamid, keyCallbackBasic_ncam,
          keyPress_fixedcamid, keyPress_ncam]
      exact h2

/-- Witness for C8: a `KEY_TAB` release from `fixedcamid = -1`, `ncam = 3`. -/
theorem keyCallback_camera_invariant_witness :
    (-1 ≤ baseState.cam_fixedcamid ∧
      baseState.cam_fixedcamid < baseState.ncam) ∧
    (-1 ≤ (keyCallback kenv0 baseState KEY_TAB GLFW_RELEASE).1.cam_fixedcamid ∧
      (keyCallback kenv0 baseState KEY_TAB GLFW_RELEASE).1.cam_fixedcamid <
        (keyCallback kenv0 baseState KEY_TAB GLFW_RELEASE).1.ncam) :=
  ⟨⟨by decide, by decide⟩,
   (keyCallback_camera_invariant kenv0 baseState KEY_TAB GLFW_RELEASE
      (by decide) (by decide)).1⟩

/-- C9: with `_paused` true and `_advance_by_one_step` true, `render` runs
the inner loop exactly once, resets `_advance_by_one_step` to `False`, and
leaves `_paused` true. -/
theorem render_single_step (env : RenderEnv) (fuel : Nat) (s : ViewerState)
    (hf : 1 ≤ fuel) (hp : s.paused = some true)
    (ha : s.advance_by_one_step = true) :
    (render env fuel s).map
        (fun p => (p.2, p.1.advance_by_one_step, p.1.paused)) =
      some (1, false, some true) := by
  cases fuel with
  | zero => exact absurd hf (by omega)
  | succ n =>
    have hp0 : pausedTruthy
        ({ s with user_overlay := s.overlay } : ViewerState).paused = true := by
      show pausedTruthy s.paused = true
      rw [hp]
      rfl
    have hadv : (renderInnerLoop env
        { s with user_overlay := s.overlay }).advance_by_one_step = true := by
      rw [renderInnerLoop_advance]
      exact ha
    unfold render
    rw [if_pos hp0]
    have e1 : pausedLoop env (n + 1) { s with user_overlay := s.overlay } =
        some ({ renderInnerLoop env { s with user_overlay := s.overlay } with
                  advance_by_one_step := false }, 1) := by
      unfold pausedLoop
      rw [if_pos hp0, if_pos hadv]
    rw [e1]
    simp [renderInnerLoop_paused, hp]

/-- C10: whenever `render` returns, the viewer's `_markers` list and
`_overlay` mapping are empty. -/
theorem render_clears_markers_overlay (env : RenderEnv) (fuel : Nat)
    (s : ViewerState) (r : ViewerState × Nat) (h : render env fuel s = some r) :
    r.1.markers = [] ∧ r.1.overlay = [] := by
  unfold render at h
  rw [Option.map_eq_some'] at h
  obtain ⟨p, -, hp2⟩ := h
  subst hp2
  exact ⟨rfl, rfl⟩

/-- Witness for C9 at a concrete paused single-step state. -/
theorem render_single_step_witness :
    1 ≤ 2 ∧ pausedCaptureState.paused = some true ∧
    pausedCaptureState.advance_by_one_step = true ∧
    (render renv0 2 pausedCaptureState).map
        (fun p => (p.2, p.1.advance_by_one_step, p.1.paused)) =
      some (1, false, some true) :=
  ⟨by omega, rfl, rfl,
   render_single_step renv0 2 pausedCaptureState (by omega) rfl rfl⟩

/-- Witness for C10: a terminating `render` call and its cleared state. -/
theorem render_clears_markers_overlay_witness :
    render renv0 2 pausedCaptureState = some (renderedCaptureState, 1) ∧
    renderedCaptureState.markers = [] ∧
    renderedCaptureState.overlay = [] :=
  ⟨rfl,
   render_clears_markers_overlay renv0 2 pausedCaptureState
     (renderedCaptureState, 1) rfl⟩

end MjViewer
